import Mathlib

/-!
Verification of the capability-declaration validator of the rosetta-sdk-go
asserter package.

The repository sources at hand are `types/allow.go` (the `Allow` wire type)
and `asserter/asserter_test.go` (the tests of `NewClientWithResponses`,
`NewClientWithFile` and `ClientConfiguration`).  The asserter implementation
itself is not among the sources, so the constructor and accessors below are
modelled from the specification, with the concrete error strings pinned by
the expectations of `TestNew` in `asserter_test.go`:

  * missing block identifier          -> "BlockIdentifier is nil"
  * nil / empty operation status list -> "no Allow.OperationStatuses found"
  * duplicated operation status S     -> "Allow.OperationStatuses contains a duplicate S"
  * duplicated operation type T       -> "Allow.OperationTypes contains a duplicate T"

Go nil pointers are modelled as `Option`, Go slices as `List` (a nil slice
and an empty slice are both the empty list, matching Go `len == 0`), Go
`int64` as `Int`, and a Go function returning `(value, error)` as
`Except String value` (the tests compare errors by their message string).
-/

/-- `types.NetworkIdentifier`: the pair identifying a chain and network. -/
structure NetworkIdentifier where
  blockchain : String
  network : String
deriving DecidableEq, Repr

/-- `types.BlockIdentifier`: an index/hash block reference. -/
structure BlockIdentifier where
  index : Int
  hash : String
deriving DecidableEq, Repr

/-- `types.Peer`: a peer entry of the status message (carried, never validated). -/
structure Peer where
  peerID : String
deriving DecidableEq, Repr

/-- `types.NetworkStatusResponse`: the status part of a capability declaration. -/
structure NetworkStatusResponse where
  genesisBlockIdentifier : Option BlockIdentifier
  currentBlockIdentifier : Option BlockIdentifier
  currentBlockTimestamp : Int
  peers : List Peer
deriving DecidableEq, Repr

/-- `types.OperationStatus`: one declared operation status. -/
structure OperationStatus where
  status : String
  successful : Bool
deriving DecidableEq, Repr

/-- `types.Error`: one declared error shape (named `RosettaError` to avoid
clashing with library names). -/
structure RosettaError where
  code : Int
  message : String
  retriable : Bool
deriving DecidableEq, Repr

/-- `types.Version`: the version block of the options message. -/
structure Version where
  rosettaVersion : String
  nodeVersion : String
deriving DecidableEq, Repr

/-- `types.Allow` (from `types/allow.go`): the three allow-lists plus the
historical-balance-lookup flag. -/
structure Allow where
  operationStatuses : List OperationStatus
  operationTypes : List String
  errors : List RosettaError
  historicalBalanceLookup : Bool
deriving DecidableEq, Repr

/-- `types.NetworkOptionsResponse`: the options part of a capability
declaration; the `Allow` pointer may be nil. -/
structure NetworkOptionsResponse where
  version : Version
  allow : Option Allow
deriving DecidableEq, Repr

/-- The accepted, immutable projection of a capability declaration (the
spec's *Validator*, the package's `Asserter`). -/
structure Asserter where
  network : NetworkIdentifier
  genesisBlock : BlockIdentifier
  operationTypes : List String
  operationStatuses : List OperationStatus
  errors : List RosettaError
deriving DecidableEq, Repr

/-- `asserter.FileConfiguration`: the persisted snapshot layout, with exactly
the fields the test writes (network identity, genesis block identifier and
the three allow-lists). -/
structure FileConfiguration where
  networkIdentifier : NetworkIdentifier
  genesisBlockIdentifier : Option BlockIdentifier
  allowedOperationTypes : List String
  allowedOperationStatuses : List OperationStatus
  allowedErrors : List RosettaError
deriving DecidableEq, Repr

/-- Modelled from the spec: the named minimum plausible epoch constant
`MinUnixEpoch` (the spec fixes no numeric value; midnight UTC January 1 2000
in milliseconds is used, and no claim depends on the value). -/
def MinUnixEpoch : Int := 946713600000

/-- Modelled from the spec: check 1 of the validation algorithm, the
network-identity non-emptiness check (its error strings are not pinned by
the tests). -/
def checkNetworkIdentifier (network : NetworkIdentifier) : Option String :=
  if network.blockchain = "" then some "NetworkIdentifier.Blockchain is missing"
  else if network.network = "" then some "NetworkIdentifier.Network is missing"
  else none

/-- Modelled from the spec: check 3, the current-block-timestamp plausibility
check against `MinUnixEpoch` (strictly-greater required; the error string is
not pinned by the tests). -/
def checkTimestamp (timestamp : Int) : Option String :=
  if timestamp ≤ MinUnixEpoch then some "Timestamp is invalid" else none

/-- First duplicate of a list, scanning in declaration order with the set of
already-seen elements: returns the element whose second occurrence has the
lowest index. -/
def findDup (seen : List String) : List String → Option String
  | [] => none
  | x :: xs => if x ∈ seen then some x else findDup (x :: seen) xs

/-- Modelled from the spec: checks 5-7 of the validation algorithm over a
present `Allow`: non-empty status list, then first duplicated status string,
then first duplicated operation type (error strings pinned by the tests). -/
def checkAllow (allow : Allow) : Option String :=
  if allow.operationStatuses.isEmpty then some "no Allow.OperationStatuses found"
  else
    match findDup [] (allow.operationStatuses.map OperationStatus.status) with
    | some s => some ("Allow.OperationStatuses contains a duplicate " ++ s)
    | none =>
      match findDup [] allow.operationTypes with
      | some t => some ("Allow.OperationTypes contains a duplicate " ++ t)
      | none => none

/-- Modelled from the spec: `asserter.NewClientWithResponses` (the spec's
`FromResponses`), absent from the sources.  Runs the validation algorithm of
spec §4.1 in its fixed order — identity, genesis then current block-reference
presence, timestamp plausibility, allow-list presence, non-empty status list,
status duplicates, type duplicates — failing fast with the first violation,
and on success returns the Validator holding exactly the accepted fields. -/
def NewClientWithResponses (network : NetworkIdentifier)
    (status : NetworkStatusResponse) (options : NetworkOptionsResponse) :
    Except String Asserter :=
  match checkNetworkIdentifier network with
  | some e => .error e
  | none =>
    match status.genesisBlockIdentifier with
    | none => .error "BlockIdentifier is nil"
    | some genesis =>
      match status.currentBlockIdentifier with
      | none => .error "BlockIdentifier is nil"
      | some _ =>
        match checkTimestamp status.currentBlockTimestamp with
        | some e => .error e
        | none =>
          match options.allow with
          | none => .error "Allow is nil"
          | some allow =>
            match checkAllow allow with
            | some e => .error e
            | none => .ok
                { network := network
                  genesisBlock := genesis
                  operationTypes := allow.operationTypes
                  operationStatuses := allow.operationStatuses
                  errors := allow.errors }

/-- Modelled from the spec: `Asserter.ClientConfiguration` (the spec's
`Configuration()`), absent from the sources.  Pure accessor returning the
accepted network identity, genesis reference and the three allow-lists; its
Go signature carries an error result, which is always nil on a constructed
asserter. -/
def Asserter.ClientConfiguration (a : Asserter) :
    Except String (NetworkIdentifier × BlockIdentifier × List String ×
      List OperationStatus × List RosettaError) :=
  .ok (a.network, a.genesisBlock, a.operationTypes, a.operationStatuses, a.errors)

/-- Modelled from the spec: `asserter.NewClientWithFile` (the spec's
`FromPersistedSnapshot`), absent from the sources, applied to an
already-parsed snapshot (file reading and JSON decoding — the spec's
SnapshotLoadFailure — are external collaborators outside the model).  Applies
the same validation as `NewClientWithResponses` restricted to the checks
whose subject the snapshot layout carries: identity, genesis presence,
non-empty status list and both duplicate scans. -/
def NewClientWithFile (config : FileConfiguration) : Except String Asserter :=
  match checkNetworkIdentifier config.networkIdentifier with
  | some e => .error e
  | none =>
    match config.genesisBlockIdentifier with
    | none => .error "BlockIdentifier is nil"
    | some genesis =>
      match checkAllow
          { operationStatuses := config.allowedOperationStatuses
            operationTypes := config.allowedOperationTypes
            errors := config.allowedErrors
            historicalBalanceLookup := false } with
      | some e => .error e
      | none => .ok
          { network := config.networkIdentifier
            genesisBlock := genesis
            operationTypes := config.allowedOperationTypes
            operationStatuses := config.allowedOperationStatuses
            errors := config.allowedErrors }

/-- The projection of a declaration into the snapshot layout, exactly as the
test builds its `FileConfiguration` from the raw responses. -/
def fileConfigOf (network : NetworkIdentifier) (status : NetworkStatusResponse)
    (allow : Allow) : FileConfiguration :=
  { networkIdentifier := network
    genesisBlockIdentifier := status.genesisBlockIdentifier
    allowedOperationTypes := allow.operationTypes
    allowedOperationStatuses := allow.operationStatuses
    allowedErrors := allow.errors }

/-! ### Helper lemmas about `findDup` -/

theorem findDup_eq_none_iff (seen : List String) (l : List String)
    (hseen : seen.Nodup) : findDup seen l = none ↔ (seen ++ l).Nodup := by
  induction l generalizing seen with
  | nil => simp [findDup, hseen]
  | cons a xs ih =>
    by_cases ha : a ∈ seen
    · simp only [findDup, if_pos ha]
      constructor
      · intro h; exact absurd h (Option.some_ne_none a)
      · intro hnd
        rcases List.nodup_append.mp hnd with ⟨-, -, hdisj⟩
        exact (hdisj ha (List.mem_cons_self a xs)).elim
    · have hseen' : (a :: seen).Nodup := List.nodup_cons.mpr ⟨ha, hseen⟩
      simp only [findDup, if_neg ha]
      rw [ih (a :: seen) hseen']
      exact (List.Perm.nodup_iff List.perm_middle).symm

theorem findDup_eq_some_iff (seen : List String) (l : List String) (x : String)
    (hseen : seen.Nodup) :
    findDup seen l = some x ↔
      ∃ pre post, l = pre ++ x :: post ∧ (x ∈ seen ∨ x ∈ pre) ∧
        (seen ++ pre).Nodup := by
  induction l generalizing seen with
  | nil =>
    constructor
    · intro h; exact Option.noConfusion h
    · rintro ⟨pre, post, hdec, -, -⟩
      simp at hdec
  | cons a xs ih =>
    by_cases ha : a ∈ seen
    · simp only [findDup, if_pos ha]
      constructor
      · intro h
        obtain rfl : a = x := Option.some.inj h
        exact ⟨[], xs, rfl, Or.inl ha, by simpa using hseen⟩
      · rintro ⟨pre, post, hdec, hmem, hnd⟩
        cases pre with
        | nil =>
          obtain ⟨rfl, rfl⟩ : a = x ∧ xs = post := by simpa using hdec
          rfl
        | cons b pre' =>
          obtain ⟨rfl, -⟩ := List.cons.inj hdec
          rcases List.nodup_append.mp hnd with ⟨-, -, hdisj⟩
          exact (hdisj ha (List.mem_cons_self a pre')).elim
    · have hseen' : (a :: seen).Nodup := List.nodup_cons.mpr ⟨ha, hseen⟩
      simp only [findDup, if_neg ha]
      rw [ih (a :: seen) hseen']
      constructor
      · rintro ⟨pre', post, rfl, hmem, hnd⟩
        refine ⟨a :: pre', post, rfl, ?_, ?_⟩
        · rcases hmem with h | h
          · rcases List.mem_cons.mp h with rfl | h
            · exact Or.inr (List.mem_cons_self _ _)
            · exact Or.inl h
          · exact Or.inr (List.mem_cons_of_mem a h)
        · exact (List.Perm.nodup_iff List.perm_middle).mpr hnd
      · rintro ⟨pre, post, hdec, hmem, hnd⟩
        cases pre with
        | nil =>
          obtain ⟨rfl, rfl⟩ : a = x ∧ xs = post := by simpa using hdec
          rcases hmem with h | h
          · exact (ha h).elim
          · exact absurd h (List.not_mem_nil _)
        | cons b pre' =>
          obtain ⟨rfl, htail⟩ := List.cons.inj hdec
          refine ⟨pre', post, htail, ?_, ?_⟩
          · rcases hmem with h | h
            · exact Or.inl (List.mem_cons_of_mem a h)
            · rcases List.mem_cons.mp h with rfl | h
              · exact Or.inl (List.mem_cons_self _ _)
              · exact Or.inr h
          · exact (List.Perm.nodup_iff List.perm_middle).mp hnd

/-- `findDup` run with an empty seen-set finds no duplicate exactly when the
list has pairwise-distinct entries. -/
theorem findDup_nil_eq_none_iff (l : List String) :
    findDup [] l = none ↔ l.Nodup := by
  simpa using findDup_eq_none_iff [] l List.nodup_nil

/-- `findDup` run with an empty seen-set returns exactly the element whose
second occurrence has the lowest index: the list splits as
`pre ++ x :: post` where `x` already occurs in `pre` and `pre` itself is
duplicate-free (so no position before that one is a second occurrence). -/
theorem findDup_nil_eq_some_iff (l : List String) (x : String) :
    findDup [] l = some x ↔
      ∃ pre post, l = pre ++ x :: post ∧ x ∈ pre ∧ pre.Nodup := by
  simpa using findDup_eq_some_iff [] l x List.nodup_nil

/-! ### Concrete declarations, mirroring the fixtures of `TestNew` -/

/-- The test's `validNetwork`. -/
def validNetwork : NetworkIdentifier := ⟨"hello", "world"⟩

/-- The test's `validNetworkStatus`. -/
def validNetworkStatus : NetworkStatusResponse :=
  ⟨some ⟨0, "block 0"⟩, some ⟨100, "block 100"⟩, MinUnixEpoch + 1, [⟨"peer 1"⟩]⟩

/-- The test's `invalidNetworkStatus`: the genesis block identifier is absent. -/
def invalidNetworkStatus : NetworkStatusResponse :=
  ⟨none, some ⟨100, "block 100"⟩, MinUnixEpoch + 1, [⟨"peer 1"⟩]⟩

/-- The version block shared by the test's options fixtures. -/
def validVersion : Version := ⟨"1.2.3", "1.0"⟩

/-- The allow-list of the test's `validNetworkOptions`. -/
def validAllow : Allow :=
  ⟨[⟨"Success", true⟩], ["Transfer"], [⟨1, "error", true⟩], false⟩

/-- The test's `validNetworkOptions`. -/
def validNetworkOptions : NetworkOptionsResponse := ⟨validVersion, some validAllow⟩

/-- The test's `invalidNetworkOptions`: no operation statuses. -/
def invalidNetworkOptions : NetworkOptionsResponse :=
  ⟨validVersion, some ⟨[], ["Transfer"], [⟨1, "error", true⟩], false⟩⟩

/-- The test's `duplicateStatuses`: two entries named "Success" differing in
their successful flag. -/
def duplicateStatuses : NetworkOptionsResponse :=
  ⟨validVersion,
    some ⟨[⟨"Success", true⟩, ⟨"Success", false⟩], ["Transfer"],
      [⟨1, "error", true⟩], false⟩⟩

/-- The test's `duplicateTypes`: the operation-type list `["Transfer", "Transfer"]`. -/
def duplicateTypes : NetworkOptionsResponse :=
  ⟨validVersion,
    some ⟨[⟨"Success", true⟩], ["Transfer", "Transfer"], [⟨1, "error", true⟩], false⟩⟩

/-- A status message that is valid except for an epoch-zero current timestamp. -/
def staleTimestampStatus : NetworkStatusResponse :=
  ⟨some ⟨0, "block 0"⟩, some ⟨100, "block 100"⟩, 0, [⟨"peer 1"⟩]⟩

/-- An options message with an empty status list and a duplicated type list. -/
def emptyStatusesDuplicateTypes : NetworkOptionsResponse :=
  ⟨validVersion, some ⟨[], ["Transfer", "Transfer"], [], false⟩⟩

/-! ### Claim C2 -/

/-- C2 counterexample: on the test's own missing-genesis declaration,
construction fails with the error "BlockIdentifier is nil", whose text does
not contain "genesis", so the error does not name which reference is
absent. -/
theorem newClient_missingGenesis_counterexample :
    NewClientWithResponses validNetwork invalidNetworkStatus validNetworkOptions
      = .error "BlockIdentifier is nil" ∧
    ¬ ("genesis".toList <:+: "BlockIdentifier is nil".toList) :=
  ⟨rfl, by decide⟩

/-- C2 (amended): for any declaration with a well-formed network identity
whose genesis block reference is absent, construction fails with the
missing-field error "BlockIdentifier is nil" — an error that does not name
which block reference is absent. -/
theorem newClient_missingGenesis_error (network : NetworkIdentifier)
    (status : NetworkStatusResponse) (options : NetworkOptionsResponse)
    (hid : checkNetworkIdentifier network = none)
    (hg : status.genesisBlockIdentifier = none) :
    NewClientWithResponses network status options = .error "BlockIdentifier is nil" ∧
    ¬ ("genesis".toList <:+: "BlockIdentifier is nil".toList) := by
  constructor
  · simp [NewClientWithResponses, hid, hg]
  · decide

/-- C2 witness: the amended statement applied to the test's missing-genesis
declaration. -/
theorem newClient_missingGenesis_error_witness :
    NewClientWithResponses validNetwork invalidNetworkStatus validNetworkOptions
      = .error "BlockIdentifier is nil" ∧
    ¬ ("genesis".toList <:+: "BlockIdentifier is nil".toList) :=
  newClient_missingGenesis_error validNetwork invalidNetworkStatus
    validNetworkOptions rfl rfl

/-! ### Claim C5 -/

/-- C5: for any declaration passing the identity, block-reference presence and
timestamp checks whose allow-list is present but declares no operation
statuses, construction fails with the empty-required-set error
"no Allow.OperationStatuses found" — for every operation-type list, so the
failure is reported before any duplicate check is attempted. -/
theorem newClient_emptyStatuses_error (network : NetworkIdentifier)
    (status : NetworkStatusResponse) (options : NetworkOptionsResponse)
    (allow : Allow)
    (hid : checkNetworkIdentifier network = none)
    (genesis current : BlockIdentifier)
    (hg : status.genesisBlockIdentifier = some genesis)
    (hc : status.currentBlockIdentifier = some current)
    (hts : MinUnixEpoch < status.currentBlockTimestamp)
    (hal : options.allow = some allow)
    (hempty : allow.operationStatuses = []) :
    NewClientWithResponses network status options
      = .error "no Allow.OperationStatuses found" := by
  have ht : checkTimestamp status.currentBlockTimestamp = none := by
    simp [checkTimestamp, not_le.mpr hts]
  simp [NewClientWithResponses, hid, hg, hc, ht, hal, checkAllow, hempty]

/-- C5 witness: the statement applied to a declaration with an empty status
list and a duplicated type list: the empty-set error wins over the duplicate
scan. -/
theorem newClient_emptyStatuses_error_witness :
    NewClientWithResponses validNetwork validNetworkStatus emptyStatusesDuplicateTypes
      = .error "no Allow.OperationStatuses found" :=
  newClient_emptyStatuses_error validNetwork validNetworkStatus
    emptyStatusesDuplicateTypes ⟨[], ["Transfer", "Transfer"], [], false⟩ rfl
    ⟨0, "block 0"⟩ ⟨100, "block 100"⟩ rfl rfl (by decide) rfl rfl

/-! ### Claim C8 -/

/-- C8: for any declaration passing the identity and block-reference checks
whose current timestamp is at or below `MinUnixEpoch`, construction fails
with the implausible-value timestamp error; and a timestamp of
`MinUnixEpoch + 1` passes the plausibility check. -/
theorem newClient_timestamp_bound (network : NetworkIdentifier)
    (status : NetworkStatusResponse) (options : NetworkOptionsResponse)
    (genesis current : BlockIdentifier)
    (hid : checkNetworkIdentifier network = none)
    (hg : status.genesisBlockIdentifier = some genesis)
    (hc : status.currentBlockIdentifier = some current)
    (hts : status.currentBlockTimestamp ≤ MinUnixEpoch) :
    NewClientWithResponses network status options = .error "Timestamp is invalid" ∧
    checkTimestamp (MinUnixEpoch + 1) = none := by
  constructor
  · simp [NewClientWithResponses, hid, hg, hc, checkTimestamp, hts]
  · rw [checkTimestamp, if_neg (by omega)]

/-- C8 witness: the statement applied to a declaration whose current
timestamp is the epoch-zero placeholder. -/
theorem newClient_timestamp_bound_witness :
    NewClientWithResponses validNetwork staleTimestampStatus validNetworkOptions
      = .error "Timestamp is invalid" ∧
    checkTimestamp (MinUnixEpoch + 1) = none :=
  newClient_timestamp_bound validNetwork staleTimestampStatus validNetworkOptions
    ⟨0, "block 0"⟩ ⟨100, "block 100"⟩ rfl rfl rfl (by decide)

/-- The allow-list inside the test's `duplicateStatuses` fixture. -/
def dupStatusAllow : Allow :=
  ⟨[⟨"Success", true⟩, ⟨"Success", false⟩], ["Transfer"], [⟨1, "error", true⟩], false⟩

/-- The allow-list inside the test's `duplicateTypes` fixture. -/
def dupTypeAllow : Allow :=
  ⟨[⟨"Success", true⟩], ["Transfer", "Transfer"], [⟨1, "error", true⟩], false⟩

/-! ### Claim C1 -/

/-- C1: for every well-formed capability declaration — non-empty network
identity, present genesis and current block references, plausible current
timestamp, present allow-list with a non-empty duplicate-free status list and
a duplicate-free type list — construction succeeds, and `ClientConfiguration`
on the resulting Validator returns no error and returns exactly the input's
network identity, genesis block reference and the three allow-lists. -/
theorem newClient_wellFormed_ok (network : NetworkIdentifier)
    (status : NetworkStatusResponse) (options : NetworkOptionsResponse)
    (genesis current : BlockIdentifier) (allow : Allow)
    (hbc : network.blockchain ≠ "") (hnw : network.network ≠ "")
    (hg : status.genesisBlockIdentifier = some genesis)
    (hc : status.currentBlockIdentifier = some current)
    (hts : MinUnixEpoch < status.currentBlockTimestamp)
    (hal : options.allow = some allow)
    (hne : allow.operationStatuses ≠ [])
    (hsd : (allow.operationStatuses.map OperationStatus.status).Nodup)
    (htd : allow.operationTypes.Nodup) :
    ∃ a : Asserter,
      NewClientWithResponses network status options = .ok a ∧
      a.ClientConfiguration = .ok (network, genesis, allow.operationTypes,
        allow.operationStatuses, allow.errors) := by
  have hid : checkNetworkIdentifier network = none := by
    simp [checkNetworkIdentifier, hbc, hnw]
  have ht : checkTimestamp status.currentBlockTimestamp = none := by
    simp [checkTimestamp, not_le.mpr hts]
  have hfd1 : findDup [] (allow.operationStatuses.map OperationStatus.status) = none :=
    (findDup_nil_eq_none_iff _).mpr hsd
  have hfd2 : findDup [] allow.operationTypes = none :=
    (findDup_nil_eq_none_iff _).mpr htd
  have hca : checkAllow allow = none := by
    simp [checkAllow, hne, hfd1, hfd2]
  refine ⟨⟨network, genesis, allow.operationTypes, allow.operationStatuses,
    allow.errors⟩, ?_, rfl⟩
  simp [NewClientWithResponses, hid, hg, hc, ht, hal, hca]

/-- C1 witness: the statement applied to the test's valid declaration (the
spec's §8 concrete scenario). -/
theorem newClient_wellFormed_ok_witness :
    ∃ a : Asserter,
      NewClientWithResponses validNetwork validNetworkStatus validNetworkOptions
        = .ok a ∧
      a.ClientConfiguration = .ok (validNetwork, ⟨0, "block 0"⟩,
        validAllow.operationTypes, validAllow.operationStatuses, validAllow.errors) :=
  newClient_wellFormed_ok validNetwork validNetworkStatus validNetworkOptions
    ⟨0, "block 0"⟩ ⟨100, "block 100"⟩ validAllow (by decide) (by decide) rfl rfl
    (by decide) rfl (by decide) (by decide) (by decide)

/-! ### Claim C3 -/

/-- C3: for any declaration passing the identity, block-reference, timestamp
and allow-presence checks whose status list has two entries sharing a status
string (regardless of their successful flags), construction fails with the
duplicate-entry error naming a status value that indeed occurs at least
twice in the list. -/
theorem newClient_duplicateStatus_error (network : NetworkIdentifier)
    (status : NetworkStatusResponse) (options : NetworkOptionsResponse)
    (genesis current : BlockIdentifier) (allow : Allow)
    (hid : checkNetworkIdentifier network = none)
    (hg : status.genesisBlockIdentifier = some genesis)
    (hc : status.currentBlockIdentifier = some current)
    (hts : MinUnixEpoch < status.currentBlockTimestamp)
    (hal : options.allow = some allow)
    (hdup : ¬ (allow.operationStatuses.map OperationStatus.status).Nodup) :
    ∃ d, NewClientWithResponses network status options
        = .error ("Allow.OperationStatuses contains a duplicate " ++ d) ∧
      2 ≤ (allow.operationStatuses.map OperationStatus.status).count d := by
  have ht : checkTimestamp status.currentBlockTimestamp = none := by
    simp [checkTimestamp, not_le.mpr hts]
  cases hfd : findDup [] (allow.operationStatuses.map OperationStatus.status) with
  | none => exact absurd ((findDup_nil_eq_none_iff _).mp hfd) hdup
  | some d =>
    obtain ⟨pre, post, hdec, hmem, -⟩ := (findDup_nil_eq_some_iff _ _).mp hfd
    have hcount : 2 ≤ (allow.operationStatuses.map OperationStatus.status).count d := by
      rw [hdec, List.count_append]
      have h1 : 0 < pre.count d := List.count_pos_iff.mpr hmem
      have h2 : (d :: post).count d = post.count d + 1 := List.count_cons_self d post
      omega
    have hne : allow.operationStatuses.isEmpty = false := by
      cases hstat : allow.operationStatuses with
      | nil => rw [hstat] at hdup; simp at hdup
      | cons a l => rfl
    have hca : checkAllow allow
        = some ("Allow.OperationStatuses contains a duplicate " ++ d) := by
      simp [checkAllow, hne, hfd]
    exact ⟨d, by simp [NewClientWithResponses, hid, hg, hc, ht, hal, hca], hcount⟩

/-- C3 witness: the statement applied to the test's `duplicateStatuses`
declaration (two entries named "Success" differing in their successful
flag). -/
theorem newClient_duplicateStatus_error_witness :
    ∃ d, NewClientWithResponses validNetwork validNetworkStatus duplicateStatuses
        = .error ("Allow.OperationStatuses contains a duplicate " ++ d) ∧
      2 ≤ (dupStatusAllow.operationStatuses.map OperationStatus.status).count d :=
  newClient_duplicateStatus_error validNetwork validNetworkStatus duplicateStatuses
    ⟨0, "block 0"⟩ ⟨100, "block 100"⟩ dupStatusAllow rfl rfl rfl (by decide) rfl
    (by decide)

/-! ### Claim C4 -/

/-- C4: for any declaration passing the identity, block-reference, timestamp,
allow-presence and operation-status checks whose operation-type list contains
two identical strings, construction fails with the duplicate-entry error
naming a type value that indeed occurs at least twice in the list. -/
theorem newClient_duplicateType_error (network : NetworkIdentifier)
    (status : NetworkStatusResponse) (options : NetworkOptionsResponse)
    (genesis current : BlockIdentifier) (allow : Allow)
    (hid : checkNetworkIdentifier network = none)
    (hg : status.genesisBlockIdentifier = some genesis)
    (hc : status.currentBlockIdentifier = some current)
    (hts : MinUnixEpoch < status.currentBlockTimestamp)
    (hal : options.allow = some allow)
    (hne : allow.operationStatuses ≠ [])
    (hsd : (allow.operationStatuses.map OperationStatus.status).Nodup)
    (hdup : ¬ allow.operationTypes.Nodup) :
    ∃ d, NewClientWithResponses network status options
        = .error ("Allow.OperationTypes contains a duplicate " ++ d) ∧
      2 ≤ allow.operationTypes.count d := by
  have ht : checkTimestamp status.currentBlockTimestamp = none := by
    simp [checkTimestamp, not_le.mpr hts]
  have hfd1 : findDup [] (allow.operationStatuses.map OperationStatus.status) = none :=
    (findDup_nil_eq_none_iff _).mpr hsd
  cases hfd : findDup [] allow.operationTypes with
  | none => exact absurd ((findDup_nil_eq_none_iff _).mp hfd) hdup
  | some d =>
    obtain ⟨pre, post, hdec, hmem, -⟩ := (findDup_nil_eq_some_iff _ _).mp hfd
    have hcount : 2 ≤ allow.operationTypes.count d := by
      rw [hdec, List.count_append]
      have h1 : 0 < pre.count d := List.count_pos_iff.mpr hmem
      have h2 : (d :: post).count d = post.count d + 1 := List.count_cons_self d post
      omega
    have hca : checkAllow allow
        = some ("Allow.OperationTypes contains a duplicate " ++ d) := by
      simp [checkAllow, hne, hfd1, hfd]
    exact ⟨d, by simp [NewClientWithResponses, hid, hg, hc, ht, hal, hca], hcount⟩

/-- C4 witness: the statement applied to the test's `duplicateTypes`
declaration (operation-type list `["Transfer", "Transfer"]`). -/
theorem newClient_duplicateType_error_witness :
    ∃ d, NewClientWithResponses validNetwork validNetworkStatus duplicateTypes
        = .error ("Allow.OperationTypes contains a duplicate " ++ d) ∧
      2 ≤ dupTypeAllow.operationTypes.count d :=
  newClient_duplicateType_error validNetwork validNetworkStatus duplicateTypes
    ⟨0, "block 0"⟩ ⟨100, "block 100"⟩ dupTypeAllow rfl rfl rfl (by decide) rfl
    (by decide) (by decide) (by decide)

/-! ### Claim C6 -/

/-- C6 counterexample: a declaration that is valid except for an epoch-zero
current timestamp. Live construction fails on the timestamp check, but the
snapshot layout carries no current block reference or timestamp, so
reconstruction from the persisted projection of the same declaration
succeeds — the two outcomes differ. -/
theorem newClient_file_roundTrip_counterexample :
    NewClientWithResponses validNetwork staleTimestampStatus validNetworkOptions
      = .error "Timestamp is invalid" ∧
    NewClientWithFile (fileConfigOf validNetwork staleTimestampStatus validAllow)
      = .ok ⟨validNetwork, ⟨0, "block 0"⟩, ["Transfer"], [⟨"Success", true⟩],
          [⟨1, "error", true⟩]⟩ :=
  ⟨rfl, rfl⟩

/-- C6 (amended): for every capability declaration whose current block
reference is present and whose current timestamp is strictly above the
minimum epoch (the two inputs the snapshot layout does not carry),
reconstructing via `NewClientWithFile` from the snapshot projection of the
declaration yields exactly the outcome of live construction: the identical
error when the declaration is invalid, and, when valid, the identical
Validator (hence identical `ClientConfiguration` output). -/
theorem newClient_file_roundTrip (network : NetworkIdentifier)
    (status : NetworkStatusResponse) (version : Version) (allow : Allow)
    (current : BlockIdentifier)
    (hc : status.currentBlockIdentifier = some current)
    (hts : MinUnixEpoch < status.currentBlockTimestamp) :
    NewClientWithFile (fileConfigOf network status allow)
      = NewClientWithResponses network status ⟨version, some allow⟩ := by
  have ht : checkTimestamp status.currentBlockTimestamp = none := by
    simp [checkTimestamp, not_le.mpr hts]
  cases hid : checkNetworkIdentifier network with
  | some e => simp [NewClientWithFile, NewClientWithResponses, fileConfigOf, hid]
  | none =>
    cases hg : status.genesisBlockIdentifier with
    | none => simp [NewClientWithFile, NewClientWithResponses, fileConfigOf, hid, hg]
    | some genesis =>
      have hrebuild : checkAllow ⟨allow.operationStatuses, allow.operationTypes,
          allow.errors, false⟩ = checkAllow allow := rfl
      cases hca : checkAllow allow with
      | some e =>
        simp [NewClientWithFile, NewClientWithResponses, fileConfigOf, hid, hg,
          hc, ht, hrebuild, hca]
      | none =>
        simp [NewClientWithFile, NewClientWithResponses, fileConfigOf, hid, hg,
          hc, ht, hrebuild, hca]

/-- C6 witness: the amended statement applied to the test's valid
declaration. -/
theorem newClient_file_roundTrip_witness :
    NewClientWithFile (fileConfigOf validNetwork validNetworkStatus validAllow)
      = NewClientWithResponses validNetwork validNetworkStatus
          ⟨validVersion, some validAllow⟩ :=
  newClient_file_roundTrip validNetwork validNetworkStatus validVersion validAllow
    ⟨100, "block 100"⟩ rfl (by decide)

/-! ### Claim C9 -/

/-- C9: the errors allow-list has no uniqueness constraint. If a declaration
constructs successfully, then replacing its errors list by any list at all —
in particular one with duplicate entries or repeated numeric codes — still
constructs successfully, and the accepted errors list is exactly the
replacement. -/
theorem newClient_duplicate_errors_allowed (network : NetworkIdentifier)
    (status : NetworkStatusResponse) (version : Version) (allow : Allow)
    (errs : List RosettaError) (a₀ : Asserter)
    (h : NewClientWithResponses network status ⟨version, some allow⟩ = .ok a₀) :
    ∃ a : Asserter,
      NewClientWithResponses network status
          ⟨version, some { allow with errors := errs }⟩ = .ok a ∧
      a.errors = errs := by
  have hca' : checkAllow { allow with errors := errs } = checkAllow allow := rfl
  cases hid : checkNetworkIdentifier network <;>
    cases hg : status.genesisBlockIdentifier <;>
      cases hc : status.currentBlockIdentifier <;>
        cases ht : checkTimestamp status.currentBlockTimestamp <;>
          cases hca : checkAllow allow <;>
            simp [NewClientWithResponses, hid, hg, hc, ht, hca', hca] at h ⊢

/-- C9 witness: the statement applied to the test's valid declaration with
its single error entry duplicated. -/
theorem newClient_duplicate_errors_allowed_witness :
    ∃ a : Asserter,
      NewClientWithResponses validNetwork validNetworkStatus
          ⟨validVersion, some { validAllow with errors :=
            [⟨1, "error", true⟩, ⟨1, "error", true⟩] }⟩ = .ok a ∧
      a.errors = [⟨1, "error", true⟩, ⟨1, "error", true⟩] :=
  newClient_duplicate_errors_allowed validNetwork validNetworkStatus validVersion
    validAllow [⟨1, "error", true⟩, ⟨1, "error", true⟩]
    ⟨validNetwork, ⟨0, "block 0"⟩, ["Transfer"], [⟨"Success", true⟩],
      [⟨1, "error", true⟩]⟩ rfl

/-! ### Claim C10 -/

/-- C10: the status message's peer list and the allow-list's
historical-balance-lookup flag have no influence on construction. Two
declarations agreeing on everything else produce literally the same outcome:
the same error on failure, and on success the same Validator (hence
identical `ClientConfiguration` output). -/
theorem newClient_ignores_peers_hbl (network : NetworkIdentifier)
    (s₁ s₂ : NetworkStatusResponse) (o₁ o₂ : NetworkOptionsResponse)
    (hg : s₁.genesisBlockIdentifier = s₂.genesisBlockIdentifier)
    (hc : s₁.currentBlockIdentifier = s₂.currentBlockIdentifier)
    (hts : s₁.currentBlockTimestamp = s₂.currentBlockTimestamp)
    (hv : o₁.version = o₂.version)
    (hal : o₁.allow.map (fun al => (al.operationStatuses, al.operationTypes, al.errors))
         = o₂.allow.map (fun al => (al.operationStatuses, al.operationTypes, al.errors))) :
    NewClientWithResponses network s₁ o₁ = NewClientWithResponses network s₂ o₂ := by
  obtain ⟨g1, c1, t1, p1⟩ := s₁
  obtain ⟨g2, c2, t2, p2⟩ := s₂
  obtain ⟨v1, a1⟩ := o₁
  obtain ⟨v2, a2⟩ := o₂
  cases hg; cases hc; cases hts; cases hv
  cases a1 with
  | none =>
    cases a2 with
    | none => rfl
    | some al2 => simp at hal
  | some al1 =>
    cases a2 with
    | none => simp at hal
    | some al2 =>
      obtain ⟨st1, ty1, er1, hb1⟩ := al1
      obtain ⟨st2, ty2, er2, hb2⟩ := al2
      simp at hal
      obtain ⟨h1, h2, h3⟩ := hal
      subst h1; subst h2; subst h3
      rfl

/-- C10 witness: the statement applied to the test's valid declaration
against a variant with an empty peer list and the historical-balance-lookup
flag flipped. -/
theorem newClient_ignores_peers_hbl_witness :
    NewClientWithResponses validNetwork validNetworkStatus validNetworkOptions
      = NewClientWithResponses validNetwork
          ⟨some ⟨0, "block 0"⟩, some ⟨100, "block 100"⟩, MinUnixEpoch + 1, []⟩
          ⟨validVersion, some ⟨[⟨"Success", true⟩], ["Transfer"],
            [⟨1, "error", true⟩], true⟩⟩ :=
  newClient_ignores_peers_hbl validNetwork validNetworkStatus
    ⟨some ⟨0, "block 0"⟩, some ⟨100, "block 100"⟩, MinUnixEpoch + 1, []⟩
    validNetworkOptions
    ⟨validVersion, some ⟨[⟨"Success", true⟩], ["Transfer"],
      [⟨1, "error", true⟩], true⟩⟩
    rfl rfl rfl rfl rfl

/-! ### Claim C7 -/

/-- The first failing check of a list of independently-evaluated checks. -/
def firstFailure (checks : List (Option String)) : Option String :=
  checks.findSome? id

/-- The validation checks of spec §4.1, each evaluated independently of the
others, listed in the spec's fixed order: identity, genesis presence, current
presence, timestamp plausibility, allow-list presence, non-empty status list,
status duplicates, type duplicates. -/
def specChecks (network : NetworkIdentifier) (status : NetworkStatusResponse)
    (options : NetworkOptionsResponse) : List (Option String) :=
  [ checkNetworkIdentifier network,
    match status.genesisBlockIdentifier with
    | none => some "BlockIdentifier is nil"
    | some _ => none,
    match status.currentBlockIdentifier with
    | none => some "BlockIdentifier is nil"
    | some _ => none,
    checkTimestamp status.currentBlockTimestamp,
    match options.allow with
    | none => some "Allow is nil"
    | some _ => none,
    match options.allow with
    | none => none
    | some allow =>
      if allow.operationStatuses.isEmpty then some "no Allow.OperationStatuses found"
      else none,
    match options.allow with
    | none => none
    | some allow =>
      (findDup [] (allow.operationStatuses.map OperationStatus.status)).map
        (fun s => "Allow.OperationStatuses contains a duplicate " ++ s),
    match options.allow with
    | none => none
    | some allow =>
      (findDup [] allow.operationTypes).map
        (fun t => "Allow.OperationTypes contains a duplicate " ++ t) ]

theorem newClient_firstFailure_eq (network : NetworkIdentifier)
    (status : NetworkStatusResponse) (options : NetworkOptionsResponse) :
    firstFailure (specChecks network status options)
      = match NewClientWithResponses network status options with
        | .error e => some e
        | .ok _ => none := by
  cases hid : checkNetworkIdentifier network with
  | some e =>
    simp [firstFailure, specChecks, NewClientWithResponses, hid, List.findSome?]
  | none =>
    cases hg : status.genesisBlockIdentifier with
    | none =>
      simp [firstFailure, specChecks, NewClientWithResponses, hid, hg, List.findSome?]
    | some g =>
      cases hc : status.currentBlockIdentifier with
      | none =>
        simp [firstFailure, specChecks, NewClientWithResponses, hid, hg, hc,
          List.findSome?]
      | some c =>
        cases ht : checkTimestamp status.currentBlockTimestamp with
        | some e =>
          simp [firstFailure, specChecks, NewClientWithResponses, hid, hg, hc, ht,
            List.findSome?]
        | none =>
          cases hal : options.allow with
          | none =>
            simp [firstFailure, specChecks, NewClientWithResponses, hid, hg, hc,
              ht, hal, List.findSome?]
          | some allow =>
            cases hie : allow.operationStatuses.isEmpty with
            | true =>
              simp [firstFailure, specChecks, NewClientWithResponses, hid, hg, hc,
                ht, hal, checkAllow, hie, List.findSome?]
            | false =>
              cases hfd1 : findDup []
                  (allow.operationStatuses.map OperationStatus.status) with
              | some d =>
                simp [firstFailure, specChecks, NewClientWithResponses, hid, hg,
                  hc, ht, hal, checkAllow, hie, hfd1, List.findSome?]
              | none =>
                cases hfd2 : findDup [] allow.operationTypes with
                | some d =>
                  simp [firstFailure, specChecks, NewClientWithResponses, hid, hg,
                    hc, ht, hal, checkAllow, hie, hfd1, hfd2, List.findSome?]
                | none =>
                  simp [firstFailure, specChecks, NewClientWithResponses, hid, hg,
                    hc, ht, hal, checkAllow, hie, hfd1, hfd2, List.findSome?]

/-- C7: (1) construction fails with error `e` exactly when `e` is the first
failing check of the spec's fixed check order, each check evaluated
independently — so for a declaration violating several invariants, the error
is that of the earliest violated check and later checks never contribute;
and (2) the duplicate scan reports the first duplicate in declaration order:
it returns `x` exactly when the list splits as `pre ++ x :: post` with `x`
already in `pre` and `pre` itself duplicate-free, i.e. the second occurrence
of `x` is the lowest-index second occurrence of the list. -/
theorem newClient_validation_order :
    (∀ (network : NetworkIdentifier) (status : NetworkStatusResponse)
        (options : NetworkOptionsResponse) (e : String),
        NewClientWithResponses network status options = .error e ↔
          firstFailure (specChecks network status options) = some e) ∧
    (∀ (l : List String) (x : String),
        findDup [] l = some x ↔
          ∃ pre post, l = pre ++ x :: post ∧ x ∈ pre ∧ pre.Nodup) := by
  constructor
  · intro network status options e
    rw [newClient_firstFailure_eq]
    cases h : NewClientWithResponses network status options <;> simp
  · exact findDup_nil_eq_some_iff

/-- C7 witness: the first conjunct applied to the test's missing-genesis
declaration, and the second conjunct applied to a list with two duplicated
values, where the scan reports the one whose second occurrence comes
first. -/
theorem newClient_validation_order_witness :
    firstFailure (specChecks validNetwork invalidNetworkStatus validNetworkOptions)
      = some "BlockIdentifier is nil" ∧
    ∃ pre post, ["b", "a", "b", "a"] = pre ++ "b" :: post ∧ "b" ∈ pre ∧ pre.Nodup :=
  ⟨(newClient_validation_order.1 validNetwork invalidNetworkStatus
      validNetworkOptions "BlockIdentifier is nil").mp rfl,
    (newClient_validation_order.2 ["b", "a", "b", "a"] "b").mp rfl⟩
